import Mathlib

/-!
Verification development for the roadrunner_iridium_server repository.

The embedding follows the Python sources:
  * actions.py    — pydantic action models (strict validation, camelCase aliases)
  * results.py    — result models and their JSON serialization
  * simulator.py  — the Simulator class (load_code, get_model_info,
                    simulate_time_course, compute_steady_state, _set_variables)
  * server.py     — handle_message / dispatch_message

JSON values are modelled by `JValue`; numbers are rationals (no arithmetic is
performed on them by the code under study, they are only stored and moved).
External collaborators (the antimony compiler, the RoadRunner engine, and
Python string rendering of exception args) are passed in as an `Oracles`
record, mirroring the spec's "consumed contract" boundary; the engine state
itself is a concrete `Engine` record so that reset/setValue semantics
(spec section 6) are executable.
-/

namespace RRServer

/-- A JSON value.  Numbers are modelled as rationals; a JSON integer literal
is a rational with denominator 1. -/
inductive JValue where
  | null
  | bool (b : Bool)
  | num (q : Rat)
  | str (s : String)
  | arr (xs : List JValue)
  | obj (fields : List (String × JValue))

/-- Field lookup on a JSON object; `none` on non-objects and missing keys. -/
def JValue.getField (v : JValue) (name : String) : Option JValue :=
  match v with
  | .obj fs => fs.lookup name
  | _ => none

/-- Validation failure of an inbound message (pydantic ValidationError). -/
inductive DecodeError where
  | badDiscriminator
  | fieldError (name : String)
deriving DecidableEq, Repr

/-- Look a field up first by its wire alias, then by its Python name
(actions.py sets both validate_by_alias and validate_by_name). -/
def getField2 (v : JValue) (al nm : String) : Option JValue :=
  match v.getField al with
  | some x => some x
  | none => v.getField nm

/-- Strict validation of the `id: int` field of BaseAction (actions.py):
only an integral JSON number is accepted. -/
def vId (v : JValue) : Except DecodeError Int :=
  match v.getField "id" with
  | some (.num q) => if q.den = 1 then .ok q.num else .error (.fieldError "id")
  | _ => .error (.fieldError "id")

/-- Validation of the optional `code: str | None` field of BaseAction
(alias "internalState", default None). -/
def vCode (v : JValue) : Except DecodeError (Option String) :=
  match getField2 v "internalState" "code" with
  | none => .ok none
  | some .null => .ok none
  | some (.str s) => .ok (some s)
  | some _ => .error (.fieldError "code")

/-- Strict float field (pydantic accepts any JSON number for a float). -/
def vFloat2 (v : JValue) (al nm : String) : Except DecodeError Rat :=
  match getField2 v al nm with
  | some (.num q) => .ok q
  | _ => .error (.fieldError nm)

/-- Strict int field: only an integral JSON number. -/
def vInt2 (v : JValue) (al nm : String) : Except DecodeError Int :=
  match getField2 v al nm with
  | some (.num q) => if q.den = 1 then .ok q.num else .error (.fieldError nm)
  | _ => .error (.fieldError nm)

/-- Strict bool field. -/
def vBool2 (v : JValue) (al nm : String) : Except DecodeError Bool :=
  match getField2 v al nm with
  | some (.bool b) => .ok b
  | _ => .error (.fieldError nm)

/-- Strict `list[str]` field. -/
def vStrList2 (v : JValue) (al nm : String) : Except DecodeError (List String) :=
  match getField2 v al nm with
  | some (.arr xs) =>
    xs.mapM fun x =>
      match x with
      | .str s => .ok s
      | _ => .error (.fieldError nm)
  | _ => .error (.fieldError nm)

/-- Strict `dict[str, float]` field, kept as an association list in wire
order (JSON objects with duplicate keys are not considered). -/
def vNumMap2 (v : JValue) (al nm : String) :
    Except DecodeError (List (String × Rat)) :=
  match getField2 v al nm with
  | some (.obj fs) =>
    fs.mapM fun p =>
      match p.2 with
      | .num q => .ok (p.1, q)
      | _ => .error (.fieldError nm)
  | _ => .error (.fieldError nm)

/-- ParameterScanOptions (actions.py). -/
structure ParameterScanOptions where
  varying_parameter : String
  varying_parameter_value : Rat
deriving DecidableEq, Repr

/-- Validation of a ParameterScanOptions object. -/
def decodeScan (v : JValue) : Except DecodeError ParameterScanOptions := do
  let p ← match getField2 v "varyingParameter" "varying_parameter" with
    | some (.str s) => Except.ok s
    | _ => Except.error (.fieldError "varying_parameter")
  let pv ← vFloat2 v "varyingParameterValue" "varying_parameter_value"
  Except.ok { varying_parameter := p, varying_parameter_value := pv }

/-- Optional `ParameterScanOptions | None` field (default None). -/
def vScan2 (v : JValue) (al nm : String) :
    Except DecodeError (Option ParameterScanOptions) :=
  match getField2 v al nm with
  | none => .ok none
  | some .null => .ok none
  | some w => (decodeScan w).map some

/-- TimeCoursePayload (actions.py). -/
structure TimeCoursePayload where
  start_time : Rat
  end_time : Rat
  number_of_points : Int
  reset_initial_conditions : Bool
  selection_list : List String
  variable_values : List (String × Rat)
  parameter_scan_options : Option ParameterScanOptions
deriving DecidableEq, Repr

/-- SteadyStatePayload (actions.py). -/
structure SteadyStatePayload where
  variable_values : List (String × Rat)
  parameter_scan_options : Option ParameterScanOptions
deriving DecidableEq, Repr

/-- The Action tagged union of actions.py, discriminated by `type`. -/
inductive Action where
  | loadModel (id : Int) (code : Option String)
  | timeCourse (id : Int) (code : Option String) (payload : TimeCoursePayload)
  | steadyState (id : Int) (code : Option String) (payload : SteadyStatePayload)
deriving DecidableEq, Repr

/-- The correlation id of an action. -/
def Action.getId : Action → Int
  | .loadModel i _ => i
  | .timeCourse i _ _ => i
  | .steadyState i _ _ => i

/-- The optional code attached to an action. -/
def Action.getCode : Action → Option String
  | .loadModel _ c => c
  | .timeCourse _ c _ => c
  | .steadyState _ c _ => c

/-- The wire discriminator value of an action variant. -/
def Action.tag : Action → String
  | .loadModel _ _ => "loadModel"
  | .timeCourse _ _ _ => "timeCourse"
  | .steadyState _ _ _ => "steadyState"

/-- Validation of a TimeCoursePayload object, fields in definition order. -/
def decodeTCPayload (v : JValue) : Except DecodeError TimeCoursePayload := do
  let st ← vFloat2 v "startTime" "start_time"
  let et ← vFloat2 v "endTime" "end_time"
  let np ← vInt2 v "numberOfPoints" "number_of_points"
  let rst ← vBool2 v "resetInitialConditions" "reset_initial_conditions"
  let sel ← vStrList2 v "selectionList" "selection_list"
  let vv ← vNumMap2 v "variableValues" "variable_values"
  let ps ← vScan2 v "parameterScanOptions" "parameter_scan_options"
  Except.ok
    { start_time := st, end_time := et, number_of_points := np,
      reset_initial_conditions := rst, selection_list := sel,
      variable_values := vv, parameter_scan_options := ps }

/-- Validation of a SteadyStatePayload object. -/
def decodeSSPayload (v : JValue) : Except DecodeError SteadyStatePayload := do
  let vv ← vNumMap2 v "variableValues" "variable_values"
  let ps ← vScan2 v "parameterScanOptions" "parameter_scan_options"
  Except.ok { variable_values := vv, parameter_scan_options := ps }

/-- Action.model_validate_json of actions.py: the discriminated union on the
`type` field; a loadModel action requires `payload` to be present and null. -/
def decodeAction (v : JValue) : Except DecodeError Action :=
  match v.getField "type" with
  | some (.str "loadModel") => do
    let i ← vId v
    let c ← vCode v
    match v.getField "payload" with
    | some .null => Except.ok (.loadModel i c)
    | _ => Except.error (.fieldError "payload")
  | some (.str "timeCourse") => do
    let i ← vId v
    let c ← vCode v
    match v.getField "payload" with
    | some p => do
      let pl ← decodeTCPayload p
      Except.ok (.timeCourse i c pl)
    | none => Except.error (.fieldError "payload")
  | some (.str "steadyState") => do
    let i ← vId v
    let c ← vCode v
    match v.getField "payload" with
    | some p => do
      let pl ← decodeSSPayload p
      Except.ok (.steadyState i c pl)
    | none => Except.error (.fieldError "payload")
  | _ => .error .badDiscriminator

/-- BareAction.model_validate_json of actions.py: a lax (non-strict) model
with a single `id: int` field, used only to recover a correlation id for
error reporting.  In lax mode pydantic coerces an integral number or a
decimal string to int; everything else fails. -/
def bareActionId (v : JValue) : Except DecodeError Int :=
  match v.getField "id" with
  | some (.num q) => if q.den = 1 then .ok q.num else .error (.fieldError "id")
  | some (.str s) =>
    match s.toInt? with
    | some n => .ok n
    | none => .error (.fieldError "id")
  | _ => .error (.fieldError "id")

/-- LoadModelResult (results.py); the mappings are association lists in the
order the engine iterators produce them. -/
structure LoadModelResult where
  floating_species : List (String × Rat)
  boundary_species : List (String × Rat)
  reactions : List String
  parameters : List (String × Rat)
deriving DecidableEq, Repr

/-- TimeCourseResult (results.py). -/
structure TimeCourseResult where
  column_names : List String
  rows : List (List Rat)
deriving DecidableEq, Repr

/-- SteadyStateConcentration (results.py). -/
structure SteadyStateConcentration where
  name : String
  value : Rat
deriving DecidableEq, Repr

/-- SteadyStateResultItem (results.py). -/
structure SteadyStateResultItem where
  columns : List String
  rows : List String
  values : List (List Rat)
deriving DecidableEq, Repr

/-- SteadyStateResult (results.py); eigenvalues are (real, imag) pairs. -/
structure SteadyStateResult where
  value : Rat
  concentrations : List SteadyStateConcentration
  eigen_values : List (Rat × Rat)
  jacobian : SteadyStateResultItem
  concentration_control : SteadyStateResultItem
  flux_control : SteadyStateResultItem
  elasticities : SteadyStateResultItem
deriving DecidableEq, Repr

/-- The union type of the `data` field of Result (results.py declares it as
`LoadModelResult | TimeCourseResult | SteadyStateResult`). -/
inductive ResultData where
  | loadModel (r : LoadModelResult)
  | timeCourse (r : TimeCourseResult)
  | steadyState (r : SteadyStateResult)
deriving DecidableEq, Repr

/-- Which member of the data union a result carries, as the wire
discriminator string it corresponds to. -/
def ResultData.tag : ResultData → String
  | .loadModel _ => "loadModel"
  | .timeCourse _ => "timeCourse"
  | .steadyState _ => "steadyState"

/-- Result (results.py): the success response.  Its only declared fields
are `id` and `data`. -/
structure Result where
  id : Int
  data : ResultData
deriving DecidableEq, Repr

/-- ErrorResult (results.py). -/
structure ErrorResult where
  id : Int
  error_message : String
deriving DecidableEq, Repr

/-- Serialization of a name-to-number mapping. -/
def mapJ (m : List (String × Rat)) : JValue :=
  .obj (m.map fun p => (p.1, .num p.2))

/-- Serialization of a string list. -/
def strListJ (l : List String) : JValue :=
  .arr (l.map JValue.str)

/-- model_dump_json(by_alias=True) of LoadModelResult: camelCase keys from
the to_camel alias generator. -/
def LoadModelResult.dump (r : LoadModelResult) : JValue :=
  .obj [("floatingSpecies", mapJ r.floating_species),
        ("boundarySpecies", mapJ r.boundary_species),
        ("reactions", strListJ r.reactions),
        ("parameters", mapJ r.parameters)]

/-- model_dump_json(by_alias=True) of TimeCourseResult. -/
def TimeCourseResult.dump (r : TimeCourseResult) : JValue :=
  .obj [("columnNames", strListJ r.column_names),
        ("rows", .arr (r.rows.map fun row => .arr (row.map JValue.num)))]

/-- Serialization of SteadyStateResultItem (no alias config on this model,
so keys are the Python field names). -/
def SteadyStateResultItem.dump (r : SteadyStateResultItem) : JValue :=
  .obj [("columns", strListJ r.columns),
        ("rows", strListJ r.rows),
        ("values", .arr (r.values.map fun row => .arr (row.map JValue.num)))]

/-- model_dump_json(by_alias=True) of SteadyStateResult; tuples serialize
as two-element arrays, nested models via their own dumps. -/
def SteadyStateResult.dump (r : SteadyStateResult) : JValue :=
  .obj [("value", .num r.value),
        ("concentrations", .arr (r.concentrations.map fun c =>
          .obj [("name", .str c.name), ("value", .num c.value)])),
        ("eigenValues", .arr (r.eigen_values.map fun p =>
          .arr [.num p.1, .num p.2])),
        ("jacobian", r.jacobian.dump),
        ("concentrationControl", r.concentration_control.dump),
        ("fluxControl", r.flux_control.dump),
        ("elasticities", r.elasticities.dump)]

/-- Serialization of the data union member. -/
def ResultData.dump : ResultData → JValue
  | .loadModel r => r.dump
  | .timeCourse r => r.dump
  | .steadyState r => r.dump

/-- Result.model_dump_json(by_alias=True): exactly the declared fields `id`
and `data` are emitted. -/
def Result.dump (r : Result) : JValue :=
  .obj [("id", .num r.id), ("data", r.data.dump)]

/-- ErrorResult.model_dump_json(by_alias=True). -/
def ErrorResult.dump (r : ErrorResult) : JValue :=
  .obj [("id", .num r.id), ("errorMessage", .str r.error_message)]

/-- Modelled from the external Model Engine contract (spec section 6,
"consumed"): the state of one RoadRunner instance.  `state` is the current
settable-symbol store (model.keys()), `initState` the values restored by
resetAll; the four metadata fields are what the model iterators yield at
construction time. -/
structure Engine where
  floatingSpecies : List (String × Rat)
  boundarySpecies : List (String × Rat)
  reactionIds : List String
  globalParameters : List (String × Rat)
  initState : List (String × Rat)
  state : List (String × Rat)
deriving DecidableEq, Repr

/-- model.keys(): the settable symbol names of the engine. -/
def Engine.keys (e : Engine) : List String := e.state.map Prod.fst

/-- resetAll(): restore the engine's variable store to its initial state. -/
def Engine.resetAll (e : Engine) : Engine := { e with state := e.initState }

/-- Update the first binding of a key in an association list, leaving the
list unchanged when the key is absent. -/
def setPair (n : String) (v : Rat) : List (String × Rat) → List (String × Rat)
  | [] => []
  | (k, w) :: rest => if k = n then (k, v) :: rest else (k, w) :: setPair n v rest

/-- setValue(name, value) on the engine's variable store. -/
def Engine.setValue (e : Engine) (n : String) (v : Rat) : Engine :=
  { e with state := setPair n v e.state }

/-- A RoadRunner named array (rownames, colnames, view), as consumed by
named_array_to_result_item in simulator.py. -/
structure NamedArray where
  rownames : List String
  colnames : List String
  view : List (List Rat)
deriving DecidableEq, Repr

/-- named_array_to_result_item (simulator.py): note rows take the rownames
and columns the colnames. -/
def named_array_to_result_item (a : NamedArray) : SteadyStateResultItem :=
  { rows := a.rownames, columns := a.colnames, values := a.view }

/-- The external collaborators of the core (spec sections 1 and 6): the
antimony compiler (code to SBML or an error), RoadRunner construction from
SBML, the numerical entry points, and Python's rendering of exception args
into the error message string. -/
structure Oracles where
  compile : String → Except String String
  mkEngine : String → Engine
  simulate : Engine → Rat → Rat → Int → List String → TimeCourseResult × Engine
  steadyStateSelections : Engine → List String
  getSteadyStateValues : Engine → Except String (List Rat)
  getFullEigenValues : Engine → List (Rat × Rat)
  getScaledElasticityMatrix : Engine → NamedArray
  getScaledConcentrationControlCoefficientMatrix : Engine → NamedArray
  getScaledFluxControlCoefficientMatrix : Engine → NamedArray
  getFullJacobian : Engine → NamedArray
  steadyState : Engine → Except String Rat
  renderErr : String → String

/-- Python-level failures of the Simulator methods: ValueError raised by
_convert_antimony_to_sbml, AttributeError from touching an attribute or an
engine handle that was never set, TypeError from RoadRunner(None), and
engine execution failures. -/
inductive SimError where
  | valueError (msg : String)
  | attributeError
  | typeError
  | execError (msg : String)
deriving DecidableEq, Repr

/-- Observable side events of a Simulator call, used to state how often
compilation, engine construction and engine entry points happen.  The
simulate and steady-state events record the engine state they are given. -/
inductive Event where
  | compileCall (code : String)
  | engineConstructed
  | getModelInfoCall
  | resetCall
  | simulateCall (pre : Engine)
  | steadyStateCall (pre : Engine)
deriving DecidableEq, Repr

/-- The number of compiler invocations recorded in a trace. -/
def countCompile (tr : List Event) : Nat :=
  tr.countP fun ev =>
    match ev with
    | .compileCall _ => true
    | _ => false

/-- The Simulator state (simulator.py).  The four cache attributes are only
assigned inside load_code, so they are Options with none for "attribute not
yet set" (reading them then raises AttributeError). -/
structure Simulator where
  code : Option String
  sbml : Option String
  rr : Option Engine
  cached_floating_species : Option (List (String × Rat))
  cached_boundary_species : Option (List (String × Rat))
  cached_reactions : Option (List String)
  cached_parameters : Option (List (String × Rat))
deriving DecidableEq, Repr

/-- Simulator.__init__: code, sbml and the engine handle start as None, the
caches unassigned. -/
def Simulator.init : Simulator :=
  { code := none, sbml := none, rr := none,
    cached_floating_species := none, cached_boundary_species := none,
    cached_reactions := none, cached_parameters := none }

/-- Simulator.load_code.  Returns the raised error (if any), the simulator
state after the call (Python mutations survive a raise, so the state is
returned in the error case too), and the event trace.  Mirrors the source:
the cache-hit early return, then `self.code = code` BEFORE compilation,
then compilation, engine construction and metadata caching. -/
def load_code (O : Oracles) (s : Simulator) (code : String) :
    Option SimError × Simulator × List Event :=
  if s.code = some code then
    (none, s, [])
  else
    let s1 := { s with code := some code }
    match O.compile code with
    | .error msg => (some (.valueError msg), s1, [.compileCall code])
    | .ok sbml =>
      let s2 := { s1 with sbml := some sbml }
      let e := O.mkEngine sbml
      let s3 :=
        { s2 with
          rr := some e
          cached_floating_species := some e.floatingSpecies
          cached_boundary_species := some e.boundarySpecies
          cached_reactions := some e.reactionIds
          cached_parameters := some e.globalParameters }
      (none, s3, [.compileCall code, .engineConstructed])

/-- Simulator.get_model_info: returns the cached snapshot, raising
AttributeError when the caches were never assigned; it performs no engine
work. -/
def get_model_info (s : Simulator) : Except SimError LoadModelResult :=
  match s.cached_floating_species with
  | none => .error .attributeError
  | some f =>
    match s.cached_boundary_species with
    | none => .error .attributeError
    | some b =>
      match s.cached_reactions with
      | none => .error .attributeError
      | some r =>
        match s.cached_parameters with
        | none => .error .attributeError
        | some p =>
          .ok { floating_species := f, boundary_species := b,
                reactions := r, parameters := p }

/-- Simulator._set_variables: model_keys is read once; each override in
variable_values is applied only when its name is among model_keys, then the
scan option's varying parameter likewise. -/
def set_variables (variable_values : List (String × Rat))
    (parameter_scan_options : Option ParameterScanOptions) (e : Engine) :
    Engine :=
  let model_keys := e.keys
  let e1 := variable_values.foldl
    (fun acc p => if p.1 ∈ model_keys then acc.setValue p.1 p.2 else acc) e
  match parameter_scan_options with
  | some o =>
    if o.varying_parameter ∈ model_keys then
      e1.setValue o.varying_parameter o.varying_parameter_value
    else e1
  | none => e1

/-- Simulator.simulate_time_course: with no engine handle every path raises
AttributeError; otherwise resetAll exactly when reset_initial_conditions,
then _set_variables, then the engine's simulate call (whose input state is
recorded in the trace). -/
def simulate_time_course (O : Oracles) (s : Simulator)
    (start_time end_time : Rat) (number_of_points : Int)
    (reset_initial_conditions : Bool) (selection_list : List String)
    (variable_values : List (String × Rat))
    (parameter_scan_options : Option ParameterScanOptions) :
    Except SimError TimeCourseResult × Simulator × List Event :=
  match s.rr with
  | none => (.error .attributeError, s, [])
  | some e0 =>
    let e1 := if reset_initial_conditions then e0.resetAll else e0
    let e2 := set_variables variable_values parameter_scan_options e1
    let pr := O.simulate e2 start_time end_time number_of_points selection_list
    (.ok pr.1, { s with rr := some pr.2 },
     (if reset_initial_conditions then [Event.resetCall] else [])
       ++ [Event.simulateCall e2])

/-- The body of Simulator.compute_steady_state once an engine handle is in
hand: resetAll always, then _set_variables, then the solver and matrix
getters in source order (getSteadyStateValues before steadyState, either of
which may fail). -/
def compute_steady_state_loaded (O : Oracles) (s : Simulator) (e0 : Engine)
    (variable_values : List (String × Rat))
    (parameter_scan_options : Option ParameterScanOptions) :
    Except SimError SteadyStateResult × Simulator × List Event :=
  let e1 := e0.resetAll
  let e2 := set_variables variable_values parameter_scan_options e1
  let s1 := { s with rr := some e2 }
  let tr := [Event.resetCall, Event.steadyStateCall e2]
  match O.getSteadyStateValues e2 with
  | .error m => (.error (.execError m), s1, tr)
  | .ok vals =>
    let concentrations := (List.zip (O.steadyStateSelections e2) vals).map
      fun p => SteadyStateConcentration.mk p.1 p.2
    let eigen := O.getFullEigenValues e2
    let elasticities := named_array_to_result_item (O.getScaledElasticityMatrix e2)
    let concentration_control :=
      named_array_to_result_item (O.getScaledConcentrationControlCoefficientMatrix e2)
    let flux_control :=
      named_array_to_result_item (O.getScaledFluxControlCoefficientMatrix e2)
    let jacobian := named_array_to_result_item (O.getFullJacobian e2)
    match O.steadyState e2 with
    | .error m => (.error (.execError m), s1, tr)
    | .ok v =>
      (.ok { value := v, concentrations := concentrations, eigen_values := eigen,
             jacobian := jacobian, concentration_control := concentration_control,
             flux_control := flux_control, elasticities := elasticities },
       s1, tr)

/-- Simulator.compute_steady_state: when no engine handle exists it tries
RoadRunner(self.sbml), which with sbml = None raises (TypeError). -/
def compute_steady_state (O : Oracles) (s : Simulator)
    (variable_values : List (String × Rat))
    (parameter_scan_options : Option ParameterScanOptions) :
    Except SimError SteadyStateResult × Simulator × List Event :=
  match s.rr with
  | some e0 => compute_steady_state_loaded O s e0 variable_values parameter_scan_options
  | none =>
    match s.sbml with
    | none => (.error .typeError, s, [])
    | some sb =>
      let e0 := O.mkEngine sb
      compute_steady_state_loaded O { s with rr := some e0 } e0
        variable_values parameter_scan_options

/-- The part of server.py handle_message after a successful decode: load
the action's code when it is truthy (Python: None and the empty string are
both falsy), then dispatch on the variant.  A loadModel action calls
get_model_info twice, exactly as in the source (once for the unused
model_info local, once for the Result's data). -/
def runAction (O : Oracles) (s : Simulator) (a : Action) :
    Except SimError Result × Simulator × List Event :=
  match (match a.getCode with
         | some c => if c = "" then (none, s, ([] : List Event)) else load_code O s c
         | none => (none, s, [])) with
  | (some e, s1, tr) => (.error e, s1, tr)
  | (none, s1, tr) =>
    match a with
    | .loadModel i _ =>
      match get_model_info s1 with
      | .error e => (.error e, s1, tr ++ [.getModelInfoCall])
      | .ok _ =>
        match get_model_info s1 with
        | .error e => (.error e, s1, tr ++ [.getModelInfoCall, .getModelInfoCall])
        | .ok info =>
          (.ok { id := i, data := .loadModel info }, s1,
           tr ++ [.getModelInfoCall, .getModelInfoCall])
    | .timeCourse i _ p =>
      match simulate_time_course O s1 p.start_time p.end_time
          p.number_of_points p.reset_initial_conditions p.selection_list
          p.variable_values p.parameter_scan_options with
      | (.error e, s2, tr2) => (.error e, s2, tr ++ tr2)
      | (.ok r, s2, tr2) =>
        (.ok { id := i, data := .timeCourse r }, s2, tr ++ tr2)
    | .steadyState i _ p =>
      match compute_steady_state O s1 p.variable_values p.parameter_scan_options with
      | (.error e, s2, tr2) => (.error e, s2, tr ++ tr2)
      | (.ok r, s2, tr2) =>
        (.ok { id := i, data := .steadyState r }, s2, tr ++ tr2)

/-- The failure of a dispatch task: either the decode raised a
ValidationError or a Simulator call raised. -/
inductive HandleErr where
  | decodeErr (e : DecodeError)
  | simErr (e : SimError)
deriving DecidableEq, Repr

/-- server.py handle_message: decode the raw message and run the action;
any raised exception becomes the task's error. -/
def handle_message (O : Oracles) (s : Simulator) (msg : JValue) :
    Except HandleErr Result × Simulator × List Event :=
  match decodeAction msg with
  | .error e => (.error (.decodeErr e), s, [])
  | .ok a =>
    match runAction O s a with
    | (.error e, s1, tr) => (.error (.simErr e), s1, tr)
    | (.ok r, s1, tr) => (.ok r, s1, tr)

/-- The Python string attached to an ErrorResult: str(err.args); rendering
is delegated to the renderErr oracle, applied to a stable description of
the error. -/
def errText : HandleErr → String
  | .decodeErr .badDiscriminator => "ValidationError: discriminator"
  | .decodeErr (.fieldError n) => "ValidationError: " ++ n
  | .simErr (.valueError m) => "ValueError: " ++ m
  | .simErr .attributeError => "AttributeError"
  | .simErr .typeError => "TypeError"
  | .simErr (.execError m) => "RuntimeError: " ++ m

/-- What one dispatch task sends back on the connection: a Result, an
ErrorResult, or nothing at all (the task re-raised and was abandoned). -/
inductive DispatchOutcome where
  | sent (r : Result)
  | sentError (e : ErrorResult)
  | silent
deriving DecidableEq, Repr

/-- server.py dispatch_message: run handle_message; on success send the
Result; on failure try BareAction on the raw message and send an
ErrorResult with the recovered id; when even that fails, re-raise inside
the fire-and-forget task, so nothing is sent. -/
def dispatch_message (O : Oracles) (s : Simulator) (msg : JValue) :
    DispatchOutcome × Simulator × List Event :=
  match handle_message O s msg with
  | (.ok r, s1, tr) => (.sent r, s1, tr)
  | (.error e, s1, tr) =>
    match bareActionId msg with
    | .ok i =>
      (.sentError { id := i, error_message := O.renderErr (errText e) }, s1, tr)
    | .error _ => (.silent, s1, tr)

/-- A concrete engine used to instantiate the oracles in witnesses; its
metadata mirrors the repository's own test model (tests/test_simulator.py). -/
def E0 : Engine :=
  { floatingSpecies := [("A", 10), ("B", 0), ("C", 0)],
    boundarySpecies := [("Z", 15)],
    reactionIds := ["_J0", "_J1"],
    globalParameters := [("k1", 3), ("k2", 2)],
    initState := [("A", 10), ("B", 0), ("C", 0), ("k1", 3), ("k2", 2)],
    state := [("A", 10), ("B", 0), ("C", 0), ("k1", 3), ("k2", 2)] }

/-- A concrete empty named array. -/
def NA0 : NamedArray := { rownames := [], colnames := [], view := [] }

/-- Concrete oracles for witnesses and counterexamples: exactly one source
string ("good") compiles, everything else fails with "syntax error". -/
def O0 : Oracles :=
  { compile := fun c => if c = "good" then .ok "sbml-good" else .error "syntax error",
    mkEngine := fun _ => E0,
    simulate := fun e _ _ _ sel => ({ column_names := sel, rows := [] }, e),
    steadyStateSelections := fun _ => [],
    getSteadyStateValues := fun _ => .ok [],
    getFullEigenValues := fun _ => [],
    getScaledElasticityMatrix := fun _ => NA0,
    getScaledConcentrationControlCoefficientMatrix := fun _ => NA0,
    getScaledFluxControlCoefficientMatrix := fun _ => NA0,
    getFullJacobian := fun _ => NA0,
    steadyState := fun _ => .ok 0,
    renderErr := fun s => s }

/-- The session state after successfully loading the code "good" into a
fresh simulator. -/
def sGood : Simulator := (load_code O0 Simulator.init "good").2.1

/-- The metadata snapshot cached by that load. -/
def infoGood : LoadModelResult :=
  { floating_species := E0.floatingSpecies,
    boundary_species := E0.boundarySpecies,
    reactions := E0.reactionIds,
    parameters := E0.globalParameters }

/-- A loadModel message with integer id i and no code field. -/
def mkLoadMsg (i : Int) : JValue :=
  .obj [("id", .num (i : Rat)), ("type", .str "loadModel"), ("payload", .null)]

/-- A concrete loadModel message with id 7. -/
def msgLoad7 : JValue := mkLoadMsg 7

/-- The result produced for msgLoad7 on the sGood session. -/
def r7 : Result := { id := 7, data := .loadModel infoGood }

/-- An otherwise-valid loadModel message whose id is a JSON string. -/
def msgStrId : JValue :=
  .obj [("id", .str "abc"), ("type", .str "loadModel"), ("payload", .null)]

/-- C1: on a session that has successfully loaded "good", a load_code call
whose compilation fails raises a ValueError but has already overwritten the
stored code with the failing source; the engine handle and the cached
metadata (hence getModelInfo) are the only parts of the prior state left
untouched.  This exhibits the code's divergence from the claim that the
ENTIRE prior state, including the record of the last loaded code, is
unchanged. -/
theorem c1_failed_load_overwrites_stored_code :
    (load_code O0 sGood "bad").1 = some (SimError.valueError "syntax error")
    ∧ sGood.code = some "good"
    ∧ (load_code O0 sGood "bad").2.1.code = some "bad"
    ∧ (load_code O0 sGood "bad").2.1.rr = sGood.rr
    ∧ get_model_info (load_code O0 sGood "bad").2.1 = Except.ok infoGood
    ∧ get_model_info sGood = Except.ok infoGood := by
  exact ⟨rfl, rfl, rfl, rfl, rfl, rfl⟩

/-- C2: dispatching the raw message `\x7b\x7d` (a JSON object with no id)
fails to decode, and since BareAction cannot locate an id either, the
except-clause re-raises inside the fire-and-forget task: no ErrorResult is
sent at all, i.e. the request is answered with silence instead of a
sentinel-id ErrorResult. -/
theorem c2_unlocatable_id_yields_silence :
    dispatch_message O0 Simulator.init (JValue.obj [])
      = (DispatchOutcome.silent, Simulator.init, []) := by
  exact rfl

/-- C9 counterexample: the otherwise-valid loadModel message whose id is
the JSON string "abc" is rejected by decode (strict `id: int`), contrary to
the claim that decoding succeeds for string ids. -/
theorem c9_counterexample_string_id_fails_decode :
    decodeAction msgStrId = Except.error (DecodeError.fieldError "id") := by
  exact rfl

/-- C9 amended: decode accepts only integer ids; every raw message whose id
field is a JSON string fails validation with a DecodeError, whatever the
rest of the message looks like. -/
theorem c9_amended_string_id_always_rejected (v : JValue) (s : String)
    (h : v.getField "id" = some (.str s)) :
    ∃ e, decodeAction v = Except.error e := by
  have hv : vId v = Except.error (.fieldError "id") := by
    unfold vId; rw [h]
  unfold decodeAction
  split
  all_goals simp [hv, Bind.bind, Except.bind]

/-- Witness for C9 amended at the concrete message msgStrId. -/
theorem c9_amended_witness :
    ∃ e, decodeAction msgStrId = Except.error e :=
  c9_amended_string_id_always_rejected msgStrId "abc" rfl

/-- C10: when compilation of c fails on a session whose stored code is not
already c, load_code raises ValueError, yet leaves the session with
stored code = c while the sbml, engine handle and all four metadata caches
still belong to the previously loaded model; a second load_code with the
same failing code then returns silently without compiling (cache hit on
the failing code), so the invariant that the stored code is the source of
the current engine is not preserved by a failing load. -/
theorem c10_failing_load_breaks_code_invariant (O : Oracles) (s : Simulator)
    (c m : String) (h1 : s.code ≠ some c) (h2 : O.compile c = .error m) :
    (load_code O s c).1 = some (SimError.valueError m)
    ∧ (load_code O s c).2.1.code = some c
    ∧ (load_code O s c).2.1.sbml = s.sbml
    ∧ (load_code O s c).2.1.rr = s.rr
    ∧ (load_code O s c).2.1.cached_floating_species = s.cached_floating_species
    ∧ (load_code O s c).2.1.cached_boundary_species = s.cached_boundary_species
    ∧ (load_code O s c).2.1.cached_reactions = s.cached_reactions
    ∧ (load_code O s c).2.1.cached_parameters = s.cached_parameters
    ∧ load_code O (load_code O s c).2.1 c
        = (none, (load_code O s c).2.1, []) := by
  have hlc : load_code O s c
      = (some (.valueError m), { s with code := some c }, [.compileCall c]) := by
    unfold load_code
    rw [if_neg h1, h2]
  rw [hlc]
  refine ⟨rfl, rfl, rfl, rfl, rfl, rfl, rfl, rfl, ?_⟩
  unfold load_code
  rw [if_pos rfl]

/-- Witness for C10 at the concrete failing load of "bad" over "good". -/
theorem c10_witness :
    (load_code O0 sGood "bad").1 = some (SimError.valueError "syntax error")
    ∧ (load_code O0 sGood "bad").2.1.code = some "bad"
    ∧ (load_code O0 sGood "bad").2.1.sbml = sGood.sbml
    ∧ (load_code O0 sGood "bad").2.1.rr = sGood.rr
    ∧ (load_code O0 sGood "bad").2.1.cached_floating_species
        = sGood.cached_floating_species
    ∧ (load_code O0 sGood "bad").2.1.cached_boundary_species
        = sGood.cached_boundary_species
    ∧ (load_code O0 sGood "bad").2.1.cached_reactions = sGood.cached_reactions
    ∧ (load_code O0 sGood "bad").2.1.cached_parameters = sGood.cached_parameters
    ∧ load_code O0 (load_code O0 sGood "bad").2.1 "bad"
        = (none, (load_code O0 sGood "bad").2.1, []) :=
  c10_failing_load_breaks_code_invariant O0 sGood "bad" "syntax error"
    (by decide) rfl

/-- A load_code call whose code equals the session's stored code returns at
once: no error, no state change, no events. -/
theorem load_code_cache_hit (O : Oracles) (s : Simulator) (c : String)
    (h : s.code = some c) : load_code O s c = (none, s, []) := by
  unfold load_code
  rw [if_pos h]

/-- C5 counterexample: on a session that already holds "good" (loaded
earlier), calling load_code "good" twice in a row has the first call
succeed as a cache hit, and the two calls together perform ZERO
compilations, not exactly one as the claim states for every session. -/
theorem c5_counterexample_cache_hit_zero_compiles :
    (load_code O0 sGood "good").1 = none
    ∧ countCompile ((load_code O0 sGood "good").2.2
        ++ (load_code O0 (load_code O0 sGood "good").2.1 "good").2.2) = 0 := by
  exact ⟨rfl, rfl⟩

/-- C5 amended: when the session's stored code differs from c and c
compiles, the first load_code compiles exactly once, and the second call
with the same c is a pure cache hit: it returns immediately with no error,
no state change and an empty event trace (so no compilation and no engine
reconstruction), and getModelInfo returns identical metadata after each of
the two calls.  In general the pair of calls compiles at most once: zero
times when the first call is itself a cache hit. -/
theorem c5_amended_second_load_is_cache_hit (O : Oracles) (s : Simulator)
    (c sb : String) (h1 : s.code ≠ some c) (h2 : O.compile c = .ok sb) :
    (load_code O s c).1 = none
    ∧ countCompile (load_code O s c).2.2 = 1
    ∧ load_code O (load_code O s c).2.1 c = (none, (load_code O s c).2.1, [])
    ∧ get_model_info (load_code O (load_code O s c).2.1 c).2.1
        = get_model_info (load_code O s c).2.1 := by
  have hlc1 : (load_code O s c).1 = none := by
    unfold load_code
    rw [if_neg h1, h2]
  have hcode : (load_code O s c).2.1.code = some c := by
    unfold load_code
    rw [if_neg h1, h2]
  have hsecond : load_code O (load_code O s c).2.1 c
      = (none, (load_code O s c).2.1, []) :=
    load_code_cache_hit O (load_code O s c).2.1 c hcode
  have htrace : countCompile (load_code O s c).2.2 = 1 := by
    unfold load_code
    rw [if_neg h1, h2]
    rfl
  exact ⟨hlc1, htrace, hsecond, by rw [hsecond]⟩

/-- Witness for C5 amended: loading "good" twice onto a fresh session. -/
theorem c5_amended_witness :
    (load_code O0 Simulator.init "good").1 = none
    ∧ countCompile (load_code O0 Simulator.init "good").2.2 = 1
    ∧ load_code O0 (load_code O0 Simulator.init "good").2.1 "good"
        = (none, (load_code O0 Simulator.init "good").2.1, [])
    ∧ get_model_info (load_code O0 (load_code O0 Simulator.init "good").2.1 "good").2.1
        = get_model_info (load_code O0 Simulator.init "good").2.1 :=
  c5_amended_second_load_is_cache_hit O0 Simulator.init "good" "sbml-good"
    (by decide) rfl

/-- setPair never changes the key list of the store. -/
theorem setPair_map_fst (n : String) (v : Rat) (l : List (String × Rat)) :
    (setPair n v l).map Prod.fst = l.map Prod.fst := by
  induction l with
  | nil => rfl
  | cons p rest ih =>
    obtain ⟨k, w⟩ := p
    unfold setPair
    by_cases h : k = n
    · simp [h]
    · simp [h, ih]

/-- Looking up a name other than the one set is unaffected by setPair. -/
theorem lookup_setPair_ne (n m : String) (v : Rat) (l : List (String × Rat))
    (h : n ≠ m) : List.lookup n (setPair m v l) = List.lookup n l := by
  induction l with
  | nil => rfl
  | cons p rest ih =>
    obtain ⟨k, w⟩ := p
    unfold setPair
    by_cases hk : k = m
    · rw [if_pos hk]
      subst hk
      have hne : (n == k) = false := by simp [h]
      simp [List.lookup, hne]
    · rw [if_neg hk]
      by_cases hn : n = k
      · subst hn
        simp [List.lookup]
      · have hne : (n == k) = false := by simp [hn]
        simp [List.lookup, hne, ih]

/-- The guarded setValue fold of _set_variables over a fixed key snapshot,
restricted to the overrides whose names pass the guard, computes the same
engine: overrides with unknown names are exactly the skipped ones. -/
theorem foldl_setValue_filter (ks : List String) (vals : List (String × Rat))
    (acc : Engine) :
    vals.foldl (fun a p => if p.1 ∈ ks then a.setValue p.1 p.2 else a) acc
      = (vals.filter fun p => decide (p.1 ∈ ks)).foldl
          (fun a p => if p.1 ∈ ks then a.setValue p.1 p.2 else a) acc := by
  induction vals generalizing acc with
  | nil => rfl
  | cons p rest ih =>
    by_cases h : p.1 ∈ ks
    · simp [List.foldl, List.filter_cons, h, ih]
    · simp [List.foldl, List.filter_cons, h, ih]

/-- The guarded setValue fold leaves the stored value of any name that no
applied override bears untouched. -/
theorem foldl_setValue_lookup (ks : List String) (vals : List (String × Rat))
    (acc : Engine) (n : String) (h : ∀ p ∈ vals, p.1 ∈ ks → p.1 ≠ n) :
    List.lookup n
      (vals.foldl (fun a p => if p.1 ∈ ks then a.setValue p.1 p.2 else a) acc).state
      = List.lookup n acc.state := by
  induction vals generalizing acc with
  | nil => rfl
  | cons p rest ih =>
    have hrest : ∀ q ∈ rest, q.1 ∈ ks → q.1 ≠ n := fun q hq => h q (by simp [hq])
    by_cases hm : p.1 ∈ ks
    · have hp : p.1 ≠ n := h p (by simp) hm
      simp only [List.foldl, if_pos hm]
      rw [ih _ hrest]
      exact lookup_setPair_ne n p.1 p.2 acc.state (Ne.symm hp)
    · simp only [List.foldl, if_neg hm]
      exact ih _ hrest

/-- _set_variables leaves the stored value of a name that appears neither
among the overrides nor as the scan's varying parameter untouched. -/
theorem set_variables_lookup_not_overridden (vals : List (String × Rat))
    (scan : Option ParameterScanOptions) (e : Engine) (n : String)
    (h1 : ∀ p ∈ vals, p.1 ≠ n)
    (h2 : ∀ o, scan = some o → o.varying_parameter ≠ n) :
    List.lookup n (set_variables vals scan e).state = List.lookup n e.state := by
  cases scan with
  | none =>
    simp only [set_variables]
    exact foldl_setValue_lookup e.keys vals e n fun p hp _ => h1 p hp
  | some o =>
    have ho := h2 o rfl
    by_cases hk : o.varying_parameter ∈ e.keys
    · simp only [set_variables, if_pos hk, Engine.setValue]
      rw [lookup_setPair_ne n o.varying_parameter o.varying_parameter_value _
        (Ne.symm ho)]
      exact foldl_setValue_lookup e.keys vals e n fun p hp _ => h1 p hp
    · simp only [set_variables, if_neg hk]
      exact foldl_setValue_lookup e.keys vals e n fun p hp _ => h1 p hp

/-- C6: overrides are applied only for names among the engine's settable
symbols.  First, _set_variables computes the same engine as _set_variables
restricted to the overrides (and scan option) whose names exist among
model.keys() — unknown names are skipped with no error, the known ones are
still applied.  Second, the stored value of any unknown name is untouched. -/
theorem c6_unknown_names_silently_skipped (vals : List (String × Rat))
    (scan : Option ParameterScanOptions) (e : Engine) :
    set_variables vals scan e
      = set_variables (vals.filter fun p => decide (p.1 ∈ e.keys))
          (match scan with
           | some o => if o.varying_parameter ∈ e.keys then some o else none
           | none => none) e
    ∧ ∀ n, n ∉ e.keys →
        List.lookup n (set_variables vals scan e).state
          = List.lookup n e.state := by
  constructor
  · cases scan with
    | none =>
      simp only [set_variables]
      rw [foldl_setValue_filter]
    | some o =>
      by_cases hk : o.varying_parameter ∈ e.keys
      · simp only [set_variables, if_pos hk]
        rw [foldl_setValue_filter]
      · simp only [set_variables, if_neg hk]
        rw [foldl_setValue_filter]
  · intro n hn
    cases scan with
    | none =>
      simp only [set_variables]
      exact foldl_setValue_lookup e.keys vals e n fun p _ hm heq => hn (heq ▸ hm)
    | some o =>
      by_cases hk : o.varying_parameter ∈ e.keys
      · simp only [set_variables, if_pos hk, Engine.setValue]
        have hne : n ≠ o.varying_parameter := fun heq => hn (heq ▸ hk)
        rw [lookup_setPair_ne n o.varying_parameter o.varying_parameter_value _ hne]
        exact foldl_setValue_lookup e.keys vals e n fun p _ hm heq => hn (heq ▸ hm)
      · simp only [set_variables, if_neg hk]
        exact foldl_setValue_lookup e.keys vals e n fun p _ hm heq => hn (heq ▸ hm)

/-- Witness for C6 at a concrete engine: the override list carries one
known name ("A") and one unknown name ("zz"), the scan option an unknown
parameter ("qq"); the computation equals the filtered one and the unknown
name's stored value is untouched. -/
theorem c6_witness :
    set_variables [("A", 1), ("zz", 5)]
        (some { varying_parameter := "qq", varying_parameter_value := 2 }) E0
      = set_variables
          ([("A", 1), ("zz", 5)].filter fun p => decide (p.1 ∈ E0.keys))
          (match some ({ varying_parameter := "qq", varying_parameter_value := 2 }
              : ParameterScanOptions) with
           | some o => if o.varying_parameter ∈ E0.keys then some o else none
           | none => none) E0
    ∧ List.lookup "zz"
        (set_variables [("A", 1), ("zz", 5)]
          (some { varying_parameter := "qq", varying_parameter_value := 2 }) E0).state
      = List.lookup "zz" E0.state :=
  ⟨(c6_unknown_names_silently_skipped [("A", 1), ("zz", 5)]
      (some { varying_parameter := "qq", varying_parameter_value := 2 }) E0).1,
   (c6_unknown_names_silently_skipped [("A", 1), ("zz", 5)]
      (some { varying_parameter := "qq", varying_parameter_value := 2 }) E0).2
     "zz" (by decide)⟩

/-- C7: with an engine handle present, simulate_time_course performs a
resetAll before applying overrides exactly when reset_initial_conditions is
true (first two conjuncts: the recorded trace, and reset-iff-flag), and the
engine state handed to the simulate call assigns to every variable not
re-specified in this call its model-initial value when the flag is true,
but its value carried over from before the call (cumulative state) when
the flag is false. -/
theorem c7_reset_iff_flag (O : Oracles) (s : Simulator) (e : Engine)
    (st et : Rat) (np : Int) (reset : Bool) (sel : List String)
    (vals : List (String × Rat)) (scan : Option ParameterScanOptions)
    (h : s.rr = some e) :
    (simulate_time_course O s st et np reset sel vals scan).2.2
      = (if reset then [Event.resetCall] else [])
        ++ [Event.simulateCall
             (set_variables vals scan (if reset then e.resetAll else e))]
    ∧ (Event.resetCall ∈ (simulate_time_course O s st et np reset sel vals scan).2.2
        ↔ reset = true)
    ∧ ∀ n, n ∉ vals.map Prod.fst →
        (∀ o, scan = some o → o.varying_parameter ≠ n) →
        List.lookup n
            (set_variables vals scan (if reset then e.resetAll else e)).state
          = if reset then List.lookup n e.initState else List.lookup n e.state := by
  have htr : (simulate_time_course O s st et np reset sel vals scan).2.2
      = (if reset then [Event.resetCall] else [])
        ++ [Event.simulateCall
             (set_variables vals scan (if reset then e.resetAll else e))] := by
    unfold simulate_time_course
    rw [h]
  refine ⟨htr, ?_, ?_⟩
  · rw [htr]
    cases reset <;> simp
  · intro n h1 h2
    rw [set_variables_lookup_not_overridden vals scan _ n
      (fun p hp heq => h1 (List.mem_map.mpr ⟨p, hp, heq⟩)) h2]
    cases reset <;> simp [Engine.resetAll]

/-- Witness for C7 on the loaded session: reset disabled, "B" not
re-specified, so the engine state given to simulate keeps the prior stored
value of "B". -/
theorem c7_witness :
    (simulate_time_course O0 sGood 0 10 11 false ["time"] [("A", 4)] none).2.2
      = [Event.simulateCall (set_variables [("A", 4)] none E0)]
    ∧ List.lookup "B" (set_variables [("A", 4)] none E0).state
        = List.lookup "B" E0.state := by
  have h := c7_reset_iff_flag O0 sGood E0 0 10 11 false ["time"] [("A", 4)] none rfl
  exact ⟨h.1, h.2.2 "B" (by decide) (fun o ho => nomatch ho)⟩

/-- A successfully dispatched action produces a Result that carries the
action's own id and whose data payload is the union member corresponding
to the action's variant. -/
theorem runAction_ok (O : Oracles) (s : Simulator) (a : Action) (r : Result)
    (s1 : Simulator) (tr : List Event)
    (h : runAction O s a = (.ok r, s1, tr)) :
    r.id = a.getId ∧ r.data.tag = a.tag := by
  cases a with
  | loadModel i c =>
    unfold runAction at h
    repeat' split at h
    all_goals simp_all [Action.getId, Action.tag, ResultData.tag]
    all_goals obtain ⟨h1, h2, h3⟩ := h
    all_goals subst h1
    all_goals simp_all [ResultData.tag]
  | timeCourse i c p =>
    unfold runAction at h
    repeat' split at h
    all_goals simp_all [Action.getId, Action.tag, ResultData.tag]
    all_goals obtain ⟨h1, h2, h3⟩ := h
    all_goals subst h1
    all_goals simp_all [ResultData.tag]
  | steadyState i c p =>
    unfold runAction at h
    repeat' split at h
    all_goals simp_all [Action.getId, Action.tag, ResultData.tag]
    all_goals obtain ⟨h1, h2, h3⟩ := h
    all_goals subst h1
    all_goals simp_all [ResultData.tag]

/-- A successful handle_message on a message that decodes to action a is
exactly a successful runAction on a. -/
theorem handle_ok_runAction (O : Oracles) (s : Simulator) (msg : JValue)
    (a : Action) (r : Result) (s1 : Simulator) (tr : List Event)
    (hd : decodeAction msg = .ok a)
    (hh : handle_message O s msg = (.ok r, s1, tr)) :
    runAction O s a = (.ok r, s1, tr) := by
  have hred : handle_message O s msg
      = match runAction O s a with
        | (.error e, s2, tr2) => (.error (.simErr e), s2, tr2)
        | (.ok r2, s2, tr2) => (.ok r2, s2, tr2) := by
    unfold handle_message
    rw [hd]
  rw [hred] at hh
  rcases hr : runAction O s a with ⟨res, s2, tr2⟩
  rw [hr] at hh
  cases res with
  | error e => simp at hh
  | ok r2 =>
    simp at hh
    obtain ⟨h1, h2, h3⟩ := hh
    subst h1
    subst h2
    subst h3
    rfl

/-- C3: whenever a valid action is handled successfully, the produced
Result's id equals the action's id. -/
theorem c3_result_id_echoes_action_id (O : Oracles) (s : Simulator)
    (msg : JValue) (a : Action) (r : Result) (s1 : Simulator) (tr : List Event)
    (hd : decodeAction msg = .ok a)
    (hh : handle_message O s msg = (.ok r, s1, tr)) :
    r.id = a.getId :=
  (runAction_ok O s a r s1 tr (handle_ok_runAction O s msg a r s1 tr hd hh)).1

/-- Witness for C3: the loadModel message with id 7 on the loaded session. -/
theorem c3_witness : r7.id = Action.getId (.loadModel 7 none) :=
  c3_result_id_echoes_action_id O0 sGood msgLoad7 (.loadModel 7 none) r7
    sGood [.getModelInfoCall, .getModelInfoCall] rfl rfl

/-- C4 counterexample: the successfully produced Result for the loadModel
action with id 7 serializes (model_dump_json of results.py's Result, which
declares only the fields id and data) WITHOUT any "type" field: the wire
response carries no variant tag at all, contrary to the claim. -/
theorem c4_counterexample_result_has_no_type_tag :
    (handle_message O0 sGood msgLoad7).1 = Except.ok r7
    ∧ (Result.dump r7).getField "type" = none := by
  exact ⟨rfl, rfl⟩

/-- C4 amended: the Result carries no explicit wire-level type tag, but the
variant of its data payload always corresponds to the triggering action's
variant: a loadModel action yields LoadModelResult data, timeCourse yields
TimeCourseResult data, steadyState yields SteadyStateResult data. -/
theorem c4_amended_data_variant_matches (O : Oracles) (s : Simulator)
    (msg : JValue) (a : Action) (r : Result) (s1 : Simulator) (tr : List Event)
    (hd : decodeAction msg = .ok a)
    (hh : handle_message O s msg = (.ok r, s1, tr)) :
    r.data.tag = a.tag :=
  (runAction_ok O s a r s1 tr (handle_ok_runAction O s msg a r s1 tr hd hh)).2

/-- Witness for C4 amended at the loadModel message with id 7. -/
theorem c4_amended_witness : r7.data.tag = Action.tag (.loadModel 7 none) :=
  c4_amended_data_variant_matches O0 sGood msgLoad7 (.loadModel 7 none) r7
    sGood [.getModelInfoCall, .getModelInfoCall] rfl rfl

/-- C8 counterexample: a loadModel action with no code field on a fresh
session is NOT rejected by any missing-code check before reaching the
Model Session: get_model_info IS invoked (the trace records it) and the
failure is an AttributeError from the unassigned metadata caches — no
MissingCodeError exists anywhere in the code. -/
theorem c8_counterexample_operation_invoked :
    handle_message O0 Simulator.init msgLoad7
      = (.error (.simErr .attributeError), Simulator.init, [.getModelInfoCall]) := by
  exact rfl

/-- C8 amended: for any oracles and any integer id, a loadModel action with
absent code on a fresh session (no previously loaded code) proceeds into
the Model Session operation, which raises AttributeError; dispatch_message
reports that failure to the client as an ErrorResult carrying the action's
id.  No MissingCodeError check exists before the operation is invoked. -/
theorem c8_amended_attribute_error_reported (O : Oracles) (i : Int) :
    handle_message O Simulator.init (mkLoadMsg i)
      = (.error (.simErr .attributeError), Simulator.init, [.getModelInfoCall])
    ∧ dispatch_message O Simulator.init (mkLoadMsg i)
      = (.sentError
           (ErrorResult.mk i (O.renderErr (errText (.simErr .attributeError)))),
         Simulator.init, [.getModelInfoCall]) := by
  exact ⟨rfl, rfl⟩

end RRServer
